import Mathlib

/-!
tdcoinbase: order validation and request signing.

A shallow embedding of `tdcoinbase/order.go` and `tdcoinbase/client.go`.

* Go strings are modelled as Lean `String`; `==` on strings is `=`.
* A method with a pointer receiver that mutates its receiver
  (`func (o *T) validate() error`) becomes a function returning the receiver
  as the call leaves it together with the returned `error`
  (`none` is Go's `nil`, `some msg` an error whose `Error()` text is `msg`).
* `fmt.Errorf` with `%s` verbs on string-kinded values is string concatenation.
-/

namespace Tdcoinbase

/-! ## order.go -/

abbrev OrderType := String
abbrev OrderSide := String
abbrev OrderStop := String

/-- The package variable `Limit OrderType = "limit"`. -/
def Limit : OrderType := "limit"
/-- The package variable `Market OrderType = "market"`. -/
def Market : OrderType := "market"
/-- The package variable `Buy OrderSide = "buy"`. -/
def Buy : OrderSide := "buy"
/-- The package variable `Sell OrderSide = "sell"`. -/
def Sell : OrderSide := "sell"
/-- The package variable `NoStop OrderStop = ""`. -/
def NoStop : OrderStop := ""
/-- The package variable `StopLoss OrderStop = "loss"`. -/
def StopLoss : OrderStop := "loss"
/-- The package variable `StopEntry OrderStop = "entry"`. -/
def StopEntry : OrderStop := "entry"

/-- The struct `commonOrderRequest`; the Go field `Type` is spelled `Type_`
because `Type` is reserved in Lean. -/
structure commonOrderRequest where
  ClientOID : String := ""
  Type_ : OrderType := ""
  Side : OrderSide := ""
  ProductID : String := ""
  Stp : String := ""
  Stop : OrderStop := ""
  StopPrice : String := ""
deriving DecidableEq, Repr

/-- The method `func (o *commonOrderRequest) validate() error`: the receiver as
the call leaves it, and the returned error. -/
def commonOrderRequest.validate (o : commonOrderRequest) :
    commonOrderRequest × Option String :=
  if o.Type_ = Limit ∨ o.Type_ = Market then
    if o.Side = Buy ∨ o.Side = Sell then
      if o.ProductID = "" then
        (o, some "tdcoinbase: order requires ProductID")
      else if o.Stop = NoStop then
        ({ o with StopPrice := "" }, none)
      else if o.StopPrice = "" then
        (o, some ("tdcoinbase: order stop " ++ o.Stop ++ " need to have a StopPrice"))
      else
        (o, none)
    else
      (o, some ("tdcoinbase: order side '" ++ o.Side ++ "' invalid or unknown"))
  else
    (o, some ("tdcoinbase: order type '" ++ o.Type_ ++ "' invalid or unknown"))

/-- The struct `LimitOrderRequest`, which embeds `commonOrderRequest`. -/
structure LimitOrderRequest extends commonOrderRequest where
  Price : String := ""
  Size : String := ""
  TimeInForce : String := ""
  CancelAfter : String := ""
  PostOnly : Bool := false
deriving DecidableEq, Repr

/-- The method `func (o *LimitOrderRequest) validate() error`. -/
def LimitOrderRequest.validate (o : LimitOrderRequest) :
    LimitOrderRequest × Option String :=
  let o : LimitOrderRequest := { o with Type_ := Limit }
  match o.tocommonOrderRequest.validate with
  | (c, some err) => ({ o with tocommonOrderRequest := c }, some err)
  | (c, none) =>
    let o : LimitOrderRequest := { o with tocommonOrderRequest := c }
    if o.Price = "" then
      (o, some "tdcoinbase: LimitOrder requires Price")
    else if o.Size = "" then
      (o, some "tdcoinbase: LimitOrder requires Size")
    else
      let r : LimitOrderRequest × Option String :=
        if o.TimeInForce = "" then
          ({ o with TimeInForce := "GTC" }, none)
        else if o.TimeInForce = "GTC" ∨ o.TimeInForce = "GTT" then
          (o, none)
        else if o.TimeInForce = "IOC" ∨ o.TimeInForce = "FOK" then
          if o.PostOnly then
            (o, some ("tdcoinbase: PostOnly flag cannot be used with TimeInForce "
              ++ o.TimeInForce))
          else
            (o, none)
        else
          (o, some ("tdcoinbase: TimeInForce '" ++ o.TimeInForce ++ "' invalid or unknown"))
      match r with
      | (o, some err) => (o, some err)
      | (o, none) =>
        if o.CancelAfter = "" ∨ o.CancelAfter = "min" ∨ o.CancelAfter = "hour"
            ∨ o.CancelAfter = "day" then
          (o, none)
        else
          (o, some ("tdcoinbase: CancelAfter '" ++ o.CancelAfter ++ "' invalid or unknown"))

/-- The struct `MarketOrderRequest`, which embeds `commonOrderRequest`. -/
structure MarketOrderRequest extends commonOrderRequest where
  Size : String := ""
  Funds : String := ""
deriving DecidableEq, Repr

/-- The method `func (o *MarketOrderRequest) validate() error`. -/
def MarketOrderRequest.validate (o : MarketOrderRequest) :
    MarketOrderRequest × Option String :=
  let o : MarketOrderRequest := { o with Type_ := Market }
  match o.tocommonOrderRequest.validate with
  | (c, some err) => ({ o with tocommonOrderRequest := c }, some err)
  | (c, none) =>
    let o : MarketOrderRequest := { o with tocommonOrderRequest := c }
    if o.Size = "" ∧ o.Funds = "" then
      (o, some "tdcoinbase: MarketOrder requires Size or Funds")
    else
      (o, none)

/-! ## coinbase.go -/

/-- The package variable `orderEndpoint = "/orders"`. -/
def orderEndpoint : String := "/orders"

/-- A `time.Time` in a response, kept as seconds and nanoseconds. -/
structure Time where
  sec : Int := 0
  nsec : Nat := 0
deriving DecidableEq, Repr

/-- The response struct `Order`. -/
structure Order where
  ID : String := ""
  Price : String := ""
  Size : String := ""
  ProductID : String := ""
  Side : OrderSide := ""
  Stp : String := ""
  Type_ : OrderType := ""
  TimeInForce : String := ""
  PostOnly : Bool := false
  CreatedAt : Time := {}
  FillFees : String := ""
  FilledSize : String := ""
  ExecutedValue : String := ""
  Status : String := ""
  Settled : Bool := false
deriving DecidableEq, Repr

/-- The struct `Error`: a status code different of 2XX and the decoded message. -/
structure Error where
  StatusCode : Int := 0
  Message : String := ""
deriving DecidableEq, Repr

/-- A Go `error` value as the client returns it: either an error that only
carries a text (`errors.New`, `fmt.Errorf`, transport and decoding errors) or
a pointer to an `Error`. -/
inductive GoError where
  | text (msg : String)
  | api (e : Error)
deriving DecidableEq, Repr

/-! ## client.go -/

abbrev Bytes := List UInt8

/-- The conversion `[]byte(s)`. -/
def bytesOf (s : String) : Bytes := s.toUTF8.data.toList

/-- An `io.Reader`: the chunks that successive `Read` calls deliver before the
stream ends. -/
abbrev Reader := List Bytes

/-- Everything a reader delivers when read to its end. -/
def Reader.content (r : Reader) : Bytes := r.flatten

/-- The reader `bytes.NewReader(b)`. -/
def bytesNewReader (b : Bytes) : Reader := [b]

/-- The type `http.Header`; `Set` and `Get` canonicalise the key in the same
way, so entries are kept under the key as written. -/
structure Header where
  entries : List (String × List String) := []
deriving DecidableEq, Repr

/-- The method `Header.Set`: replaces any values of `key` by the single `value`. -/
def Header.Set (h : Header) (key value : String) : Header :=
  ⟨(key, [value]) :: h.entries.filter (fun e => e.1 ≠ key)⟩

/-- The method `Header.Get`: the first value of `key`, or `""`. -/
def Header.Get (h : Header) (key : String) : String :=
  match h.entries.find? (fun e => e.1 = key) with
  | some (_, v :: _) => v
  | _ => ""

/-- An `http.Request` as far as the client touches it; `RequestURI` is the
value of `req.URL.RequestURI()`, `Body = none` is a nil body. -/
structure Request where
  Method : String
  RequestURI : String
  Header : Header := {}
  Body : Option Reader := none
deriving DecidableEq, Repr

/-- An `http.Response` as far as the client touches it. -/
structure Response where
  StatusCode : Int
  Body : Reader := []
deriving DecidableEq, Repr

/-- The struct `Coinbase` without its `httpClient`, which lives in `Env`. -/
structure Coinbase where
  url : String
  key : String
  secret : Bytes
  passphrase : String
deriving DecidableEq, Repr

/-- `OrderRequest` is `interface{}` in the source; the two documented
dynamic types. -/
inductive OrderRequest where
  | limit (o : LimitOrderRequest)
  | market (o : MarketOrderRequest)
deriving DecidableEq, Repr

/-- What the client takes from the Go runtime and standard library. -/
structure Env where
  /-- The value of `time.Now().UTC().Unix()` at the call. -/
  now : Int
  /-- HMAC-SHA256 of a message under a key (`crypto/hmac`, `crypto/sha256`). -/
  hmacSHA256 : Bytes → Bytes → Bytes
  /-- The function `base64.StdEncoding.EncodeToString`. -/
  base64 : Bytes → String
  /-- The function `json.Marshal` on an order request. -/
  marshal : OrderRequest → Bytes
  /-- The parsing `url.Parse` inside `http.NewRequest`, followed by `URL.RequestURI()`. -/
  parseRequestURI : String → Except String String
  /-- The call `httpClient.Do`. -/
  roundTrip : Request → Except String Response
  /-- Decoding a JSON body into an `Order`. -/
  decodeOrder : Bytes → Order → Order × Option String
  /-- Decoding a JSON body into an `Error`. -/
  decodeError : Bytes → Error → Error × Option String

/-- The function `strconv.FormatInt(i, 10)`. -/
def FormatInt (i : Int) : String :=
  match i with
  | Int.ofNat n => Nat.repr n
  | Int.negSucc n => "-" ++ Nat.repr (n + 1)

/-- The `hash.Hash` returned by `hmac.New(sha256.New, key)`: the key and the
bytes written so far. -/
structure Hash where
  key : Bytes
  written : Bytes := []
deriving DecidableEq, Repr

/-- The constructor `hmac.New(sha256.New, key)`. -/
def hmacNew (key : Bytes) : Hash := { key := key }

/-- The method `Write`: adds more data to the running hash. -/
def Hash.Write (h : Hash) (p : Bytes) : Hash := { h with written := h.written ++ p }

/-- The method `Sum(b)`: appends the current hash to `b`. -/
def Hash.Sum (env : Env) (h : Hash) (b : Bytes) : Bytes := b ++ env.hmacSHA256 h.key h.written

/-- The call `io.Copy(signature, io.TeeReader(body, &buf))`: each chunk read
from `body` is written to `buf` by the tee and then to `signature` by the copy.
The result is the hash and the buffer once the body is exhausted. -/
def teeCopy : Reader → Hash → Bytes → Hash × Bytes
  | [], signature, buf => (signature, buf)
  | p :: body, signature, buf => teeCopy body (signature.Write p) (buf ++ p)

/-- The method `func (c *Coinbase) injectHeaders(req *http.Request)`: the
request as the call leaves it. -/
def Coinbase.injectHeaders (env : Env) (c : Coinbase) (req : Request) : Request :=
  let timestamp := FormatInt env.now
  let req := { req with Header := req.Header.Set "CB-ACCESS-KEY" c.key }
  let req := { req with Header := req.Header.Set "CB-ACCESS-PASSPHRASE" c.passphrase }
  let req := { req with Header := req.Header.Set "CB-ACCESS-TIMESTAMP" timestamp }
  let signature := hmacNew c.secret
  let signature := signature.Write (bytesOf (timestamp ++ req.Method ++ req.RequestURI))
  let (req, signature) :=
    match req.Body with
    | some body =>
      let (signature, buf) := teeCopy body signature []
      ({ req with Body := some (bytesNewReader buf) }, signature)
    | none => (req, signature)
  { req with Header := req.Header.Set "CB-ACCESS-SIGN" (env.base64 (signature.Sum env [])) }

/-- The function `http.NewRequest(method, url, body)`. -/
def NewRequest (env : Env) (method url : String) (body : Option Reader) :
    Except String Request :=
  match env.parseRequestURI url with
  | .error err => .error err
  | .ok uri => .ok { Method := method, RequestURI := uri, Header := {}, Body := body }

/-- The function `handleResponse(resp, v)` for a payload decoded by `decode`:
the payload as the call leaves it, and the returned error. -/
def handleResponse {α : Type} (env : Env) (decode : Bytes → α → α × Option String)
    (resp : Response) (v : α) : α × Option GoError :=
  if resp.StatusCode > 299 then
    let err : Error := { StatusCode := resp.StatusCode }
    let err := (env.decodeError resp.Body.content err).1
    (v, some (GoError.api err))
  else
    let (v, err) := decode resp.Body.content v
    (v, err.map GoError.text)

/-- The outcome of a client call: the returned values and the requests handed
to the transport, in order. -/
structure Outcome (α : Type) where
  value : α
  err : Option GoError
  sent : List Request

/-- The method `func (c *Coinbase) PlaceOrder(orderReq OrderRequest) (Order, error)`. -/
def Coinbase.PlaceOrder (env : Env) (c : Coinbase) (orderReq : OrderRequest) : Outcome Order :=
  let o : Order := {}
  let reqBody := env.marshal orderReq
  match NewRequest env "POST" (c.url ++ orderEndpoint) (some (bytesNewReader reqBody)) with
  | .error err => { value := o, err := some (GoError.text err), sent := [] }
  | .ok req =>
    let req := c.injectHeaders env req
    match env.roundTrip req with
    | .error err => { value := o, err := some (GoError.text err), sent := [req] }
    | .ok resp =>
      let (o, err) := handleResponse env env.decodeOrder resp o
      { value := o, err := err, sent := [req] }

/-- A hexadecimal digit, in lower case. -/
def hexDigit (n : Nat) : Char := "0123456789abcdef".data.getD n '0'

/-- How `encoding/json` writes one character of a string: the quote and the
backslash are escaped, line feed, carriage return and tab get their short
form, the other control characters and the HTML characters `<`, `>`, `&` are
written as `\u00XX`, and the two line separators as ` ` and ` `.
(Newer Go releases write backspace and form feed in their short form.) -/
def jsonEscapeChar (c : Char) : List Char :=
  if c.toNat = 34 then [Char.ofNat 92, Char.ofNat 34]
  else if c.toNat = 92 then [Char.ofNat 92, Char.ofNat 92]
  else if c.toNat = 10 then [Char.ofNat 92, 'n']
  else if c.toNat = 13 then [Char.ofNat 92, 'r']
  else if c.toNat = 9 then [Char.ofNat 92, 't']
  else if c.toNat < 32 ∨ c.toNat = 60 ∨ c.toNat = 62 ∨ c.toNat = 38 then
    [Char.ofNat 92, 'u', '0', '0', hexDigit (c.toNat / 16), hexDigit (c.toNat % 16)]
  else if c.toNat = 8232 then [Char.ofNat 92, 'u', '2', '0', '2', '8']
  else if c.toNat = 8233 then [Char.ofNat 92, 'u', '2', '0', '2', '9']
  else [c]

/-- A string as a JSON string literal. -/
def jsonString (s : String) : String :=
  String.mk ([Char.ofNat 34] ++ s.data.flatMap jsonEscapeChar ++ [Char.ofNat 34])

/-- One member `"key":"value"` of a marshalled struct; with `omitempty` an
empty value gives no member. -/
def jsonMember (key value : String) (omitempty : Bool) : List String :=
  if omitempty ∧ value = "" then [] else [jsonString key ++ ":" ++ jsonString value]

/-- The members of the embedded `commonOrderRequest`, in field order, by
their struct tags. -/
def marshalCommon (o : commonOrderRequest) : List String :=
  jsonMember "client_oid" o.ClientOID true ++ jsonMember "type" o.Type_ false
    ++ jsonMember "side" o.Side false ++ jsonMember "product_id" o.ProductID false
    ++ jsonMember "stp" o.Stp true ++ jsonMember "stop" o.Stop true
    ++ jsonMember "stop_price" o.StopPrice true

/-- The function `json.Marshal` on the two order requests: the promoted
members of the embedded struct first, then the own fields, by their tags. -/
def marshalOrderRequest : OrderRequest → Bytes
  | .limit o =>
    bytesOf ("\x7b" ++ ",".intercalate
      (marshalCommon o.tocommonOrderRequest
        ++ jsonMember "price" o.Price false ++ jsonMember "size" o.Size false
        ++ jsonMember "time_in_force" o.TimeInForce false
        ++ jsonMember "cancel_after" o.CancelAfter true
        ++ (if o.PostOnly then [jsonString "post_only" ++ ":true"] else [])) ++ "\x7d")
  | .market o =>
    bytesOf ("\x7b" ++ ",".intercalate
      (marshalCommon o.tocommonOrderRequest
        ++ jsonMember "size" o.Size false ++ jsonMember "funds" o.Funds false) ++ "\x7d")

/-- The parsing of an absolute `http://` URL followed by `RequestURI()`: what
follows the authority, or `/` when nothing does. A URL that starts with a
colon has no protocol scheme and is rejected, as `url.Parse` does; other
forms of URL are not modelled and rejected too. -/
def parseHTTPRequestURI (url : String) : Except String String :=
  if "http://".data.isPrefixOf url.data then
    let rest := (url.data.drop 7).dropWhile (fun ch => ch ≠ '/')
    .ok (if rest = [] then "/" else String.mk rest)
  else if ":".data.isPrefixOf url.data then
    .error ("parse " ++ jsonString url ++ ": missing protocol scheme")
  else
    .error ("parse " ++ jsonString url ++ ": URL form not modelled")

/-- The body with which the server of `TestClientPlaceOrder` answers. -/
def orderReplyBody : Bytes :=
  bytesOf ("\x7b\"id\":\"d0c5340b-6d6c-49d9-b567-48c4bfca13d2\",\"price\":\"0.10000000\","
    ++ "\"size\":\"0.01000000\",\"product_id\":\"BTC-USD\",\"side\":\"buy\",\"stp\":\"dc\","
    ++ "\"type\":\"limit\",\"time_in_force\":\"GTC\",\"post_only\":false,"
    ++ "\"created_at\":\"2016-12-08T20:02:28.53864Z\","
    ++ "\"fill_fees\":\"0.0000000000000000\",\"filled_size\":\"0.00000000\","
    ++ "\"executed_value\":\"0.0000000000000000\",\"status\":\"pending\",\"settled\":false\x7d")

/-- The `Order` that `orderReplyBody` decodes to. -/
def orderReply : Order where
  ID := "d0c5340b-6d6c-49d9-b567-48c4bfca13d2"
  Price := "0.10000000"
  Size := "0.01000000"
  ProductID := "BTC-USD"
  Side := "buy"
  Stp := "dc"
  Type_ := "limit"
  TimeInForce := "GTC"
  PostOnly := false
  CreatedAt := { sec := 1481227348, nsec := 538640000 }
  FillFees := "0.0000000000000000"
  FilledSize := "0.00000000"
  ExecutedValue := "0.0000000000000000"
  Status := "pending"
  Settled := false

/-- Decoding the reply of the test server into an `Order`: `orderReplyBody`
decodes to `orderReply`, an empty body is `io.EOF`, and no other body is
decoded here. -/
def decodeOrderReply (body : Bytes) (o : Order) : Order × Option String :=
  if body = orderReplyBody then (orderReply, none)
  else if body = [] then (o, some "EOF")
  else (o, some "json: body not decoded in this environment")

/-- The environment of `TestClientPlaceOrder`: a server that answers every
request with status 200 and `orderReplyBody`. HMAC and base64 are stand-ins,
as no statement below depends on their values. -/
def okEnv : Env where
  now := 1700000000
  hmacSHA256 := fun key msg => key ++ msg
  base64 := fun b => String.mk (b.map (fun x => Char.ofNat x.toNat))
  marshal := marshalOrderRequest
  parseRequestURI := parseHTTPRequestURI
  roundTrip := fun _ => .ok { StatusCode := 200, Body := bytesNewReader orderReplyBody }
  decodeOrder := decodeOrderReply
  decodeError := fun _ e => (e, none)

/-- A client with the credentials of the repository tests, pointed at a local
test server. -/
def testClient : Coinbase where
  url := "http://127.0.0.1:8080"
  key := "my-key"
  secret := bytesOf "my-secret"
  passphrase := "my-passphrase"

/-- The same client with a base URL that `url.Parse` rejects. -/
def badURLClient : Coinbase := { testClient with url := ":" }

/-! ## Rendering and decoding an `Error` -/

/-- The table behind `http.StatusText` (net/http); the entries 103, 421 and 425
are present in newer Go releases only. -/
def statusTextTable : List (Int × String) :=
  [(100, "Continue"), (101, "Switching Protocols"), (102, "Processing"),
   (103, "Early Hints"),
   (200, "OK"), (201, "Created"), (202, "Accepted"),
   (203, "Non-Authoritative Information"), (204, "No Content"), (205, "Reset Content"),
   (206, "Partial Content"), (207, "Multi-Status"), (208, "Already Reported"),
   (226, "IM Used"),
   (300, "Multiple Choices"), (301, "Moved Permanently"), (302, "Found"),
   (303, "See Other"), (304, "Not Modified"), (305, "Use Proxy"),
   (307, "Temporary Redirect"), (308, "Permanent Redirect"),
   (400, "Bad Request"), (401, "Unauthorized"), (402, "Payment Required"),
   (403, "Forbidden"), (404, "Not Found"), (405, "Method Not Allowed"),
   (406, "Not Acceptable"), (407, "Proxy Authentication Required"),
   (408, "Request Timeout"), (409, "Conflict"), (410, "Gone"), (411, "Length Required"),
   (412, "Precondition Failed"), (413, "Request Entity Too Large"),
   (414, "Request URI Too Long"), (415, "Unsupported Media Type"),
   (416, "Requested Range Not Satisfiable"), (417, "Expectation Failed"),
   (418, "I'm a teapot"), (421, "Misdirected Request"), (422, "Unprocessable Entity"),
   (423, "Locked"), (424, "Failed Dependency"), (425, "Too Early"),
   (426, "Upgrade Required"), (428, "Precondition Required"),
   (429, "Too Many Requests"), (431, "Request Header Fields Too Large"),
   (451, "Unavailable For Legal Reasons"),
   (500, "Internal Server Error"), (501, "Not Implemented"), (502, "Bad Gateway"),
   (503, "Service Unavailable"), (504, "Gateway Timeout"),
   (505, "HTTP Version Not Supported"), (506, "Variant Also Negotiates"),
   (507, "Insufficient Storage"), (508, "Loop Detected"), (510, "Not Extended"),
   (511, "Network Authentication Required")]

/-- The function `http.StatusText(code)`: the text of a known code, `""` otherwise. -/
def StatusText (code : Int) : String := (statusTextTable.lookup code).getD ""

set_option linter.dupNamespace false in
/-- The method `func (e Error) Error() string`. -/
def Error.Error (e : Error) : String :=
  "tdcoinbase: " ++ StatusText e.StatusCode ++ " - " ++ e.Message

/-- A member value of a JSON object, as far as decoding into `Error` tells
values apart: `other` stands for booleans, non-integer numbers, arrays and
objects. -/
inductive JSONValue where
  | null
  | integer (n : Int)
  | string (s : String)
  | other
deriving DecidableEq, Repr

/-- A syntactically valid JSON document: an object with its members in
order, or any other value. -/
inductive JSONDoc where
  | object (members : List (String × JSONValue))
  | value (v : JSONValue)
deriving DecidableEq, Repr

/-- How `encoding/json` stores a member value into the field `Message string`:
a `null` leaves the field alone, a value of another kind is reported (the
first report is kept) and skipped. -/
def storeMessage (e : Error) (err : Option String) (v : JSONValue) : Error × Option String :=
  match v with
  | .null => (e, err)
  | .string s => ({ e with Message := s }, err)
  | .integer _ => (e, err.orElse fun _ =>
      some "json: cannot unmarshal number into Go struct field Error.message of type string")
  | .other => (e, err.orElse fun _ =>
      some "json: cannot unmarshal value into Go struct field Error.message of type string")

/-- How `encoding/json` stores a member value into the field `StatusCode int`. -/
def storeStatusCode (e : Error) (err : Option String) (v : JSONValue) :
    Error × Option String :=
  match v with
  | .null => (e, err)
  | .integer n =>
    if -9223372036854775808 ≤ n ∧ n ≤ 9223372036854775807 then
      ({ e with StatusCode := n }, err)
    else
      (e, err.orElse fun _ =>
        some "json: cannot unmarshal number into Go struct field Error.StatusCode of type int")
  | .string _ => (e, err.orElse fun _ =>
      some "json: cannot unmarshal string into Go struct field Error.StatusCode of type int")
  | .other => (e, err.orElse fun _ =>
      some "json: cannot unmarshal value into Go struct field Error.StatusCode of type int")

/-- The letter a character stands for when keys are matched without regard
to case: an ASCII capital gives its small letter, and the two other characters
that Unicode simple case folding identifies with ASCII letters, the long s
(U+017F) and the Kelvin sign (U+212A), give `s` and `k`. -/
def foldChar (c : Char) : Char :=
  if c.toNat = 383 then 's' else if c.toNat = 8490 then 'k' else c.toLower

/-- Whether two keys are equal under case folding; exact for a comparison
with a name made of ASCII letters, as the field names of `Error` are. -/
def equalFold (s t : String) : Bool :=
  s.data.map foldChar == t.data.map foldChar

/-- How `encoding/json` stores one object member into an `Error`. The struct
declares `StatusCode int` without a tag, so its key is the field name, and
`Message string` with the tag `json:"message"`; a key matches exactly or
without regard to case, and an unknown key is ignored. -/
def decodeErrorMember (acc : Error × Option String) (member : String × JSONValue) :
    Error × Option String :=
  if member.1 = "message" ∨ equalFold member.1 "message" = true then
    storeMessage acc.1 acc.2 member.2
  else if member.1 = "StatusCode" ∨ equalFold member.1 "StatusCode" = true then
    storeStatusCode acc.1 acc.2 member.2
  else
    acc

/-- The call `json.NewDecoder(body).Decode(&err)` for an `Error`, given the
syntax analysis `parseJSON` of the body: a body that is not valid JSON leaves
`err` untouched, an object is stored member by member, `null` stores nothing
and any other value is a type mismatch. -/
def decodeErrorJSON (parseJSON : Bytes → Option JSONDoc) (body : Bytes) (e : Error) :
    Error × Option String :=
  match parseJSON body with
  | none => (e, some "invalid character looking for beginning of value")
  | some (.object members) => members.foldl decodeErrorMember (e, none)
  | some (.value v) =>
    if v = .null then (e, none)
    else (e, some "json: cannot unmarshal value into Go value of type tdcoinbase.Error")

/-- An error body that carries a `StatusCode` member next to `message`. -/
def statusBody : Bytes :=
  bytesOf "\x7b\"message\":\"Invalid Price\",\"StatusCode\":200\x7d"

/-- The syntax analysis of `statusBody`; every other body is taken as invalid. -/
def statusBodyParse (body : Bytes) : Option JSONDoc :=
  if body = statusBody then
    some (.object [("message", .string "Invalid Price"), ("StatusCode", .integer 200)])
  else none

/-- The environment `okEnv` with error bodies decoded by `decodeErrorJSON`. -/
def statusEnv : Env := { okEnv with decodeError := decodeErrorJSON statusBodyParse }

/-! ## Auxiliary facts -/

theorem commonOrderRequest.common_validate_flat (o : commonOrderRequest) :
    o.validate =
      if ¬ (o.Type_ = "limit" ∨ o.Type_ = "market") then
        (o, some ("tdcoinbase: order type '" ++ o.Type_ ++ "' invalid or unknown"))
      else if ¬ (o.Side = "buy" ∨ o.Side = "sell") then
        (o, some ("tdcoinbase: order side '" ++ o.Side ++ "' invalid or unknown"))
      else if o.ProductID = "" then
        (o, some "tdcoinbase: order requires ProductID")
      else if o.Stop = "" then
        ({ o with StopPrice := "" }, none)
      else if o.StopPrice = "" then
        (o, some ("tdcoinbase: order stop " ++ o.Stop ++ " need to have a StopPrice"))
      else (o, none) := by
  unfold commonOrderRequest.validate
  simp only [Buy, Sell, Limit, Market, NoStop]
  split_ifs <;> rfl


theorem LimitOrderRequest.limit_validate_err (o : LimitOrderRequest) :
    o.validate.2 =
      if ¬ (o.Side = "buy" ∨ o.Side = "sell") then
        some ("tdcoinbase: order side '" ++ o.Side ++ "' invalid or unknown")
      else if o.ProductID = "" then some "tdcoinbase: order requires ProductID"
      else if o.Stop ≠ "" ∧ o.StopPrice = "" then
        some ("tdcoinbase: order stop " ++ o.Stop ++ " need to have a StopPrice")
      else if o.Price = "" then some "tdcoinbase: LimitOrder requires Price"
      else if o.Size = "" then some "tdcoinbase: LimitOrder requires Size"
      else if (o.TimeInForce = "IOC" ∨ o.TimeInForce = "FOK") ∧ o.PostOnly = true then
        some ("tdcoinbase: PostOnly flag cannot be used with TimeInForce " ++ o.TimeInForce)
      else if ¬ (o.TimeInForce = "" ∨ o.TimeInForce = "GTC" ∨ o.TimeInForce = "GTT"
          ∨ o.TimeInForce = "IOC" ∨ o.TimeInForce = "FOK") then
        some ("tdcoinbase: TimeInForce '" ++ o.TimeInForce ++ "' invalid or unknown")
      else if o.CancelAfter = "" ∨ o.CancelAfter = "min" ∨ o.CancelAfter = "hour"
            ∨ o.CancelAfter = "day" then none
      else some ("tdcoinbase: CancelAfter '" ++ o.CancelAfter ++ "' invalid or unknown") := by
  unfold LimitOrderRequest.validate
  simp only [commonOrderRequest.common_validate_flat, Limit]
  by_cases hS : o.Side = "buy" ∨ o.Side = "sell"
  swap
  · simp [hS]
  by_cases hP : o.ProductID = ""
  · simp [hS, hP]
  by_cases hSt : o.Stop = "" <;> by_cases hSP : o.StopPrice = "" <;>
  by_cases hPr : o.Price = "" <;> by_cases hSz : o.Size = "" <;>
  simp [hS, hP, hSt, hSP, hPr, hSz] <;>
  (by_cases h1 : o.TimeInForce = ""
   · simp [h1]; split_ifs <;> rfl
   by_cases h2 : o.TimeInForce = "GTC"
   · simp [h2]; split_ifs <;> rfl
   by_cases h3 : o.TimeInForce = "GTT"
   · simp [h3]; split_ifs <;> rfl
   by_cases h4 : o.TimeInForce = "IOC"
   · by_cases h6 : o.PostOnly = true
     · simp [h4, h6]
     · simp [h4, h6]; split_ifs <;> rfl
   by_cases h5 : o.TimeInForce = "FOK"
   · by_cases h6 : o.PostOnly = true
     · simp [h5, h6]
     · simp [h5, h6]; split_ifs <;> rfl
   simp [h1, h2, h3, h4, h5])

theorem LimitOrderRequest.limit_validate_fst (o : LimitOrderRequest) :
    o.validate.1 =
      { o with
        Type_ := "limit"
        StopPrice :=
          if (o.Side = "buy" ∨ o.Side = "sell") ∧ o.ProductID ≠ "" ∧ o.Stop = "" then ""
          else o.StopPrice
        TimeInForce :=
          if (o.Side = "buy" ∨ o.Side = "sell") ∧ o.ProductID ≠ ""
              ∧ (o.Stop = "" ∨ o.StopPrice ≠ "") ∧ o.Price ≠ "" ∧ o.Size ≠ ""
              ∧ o.TimeInForce = "" then "GTC"
          else o.TimeInForce } := by
  unfold LimitOrderRequest.validate
  simp only [commonOrderRequest.common_validate_flat, Limit]
  by_cases hS : o.Side = "buy" ∨ o.Side = "sell"
  swap
  · simp [hS]
  by_cases hP : o.ProductID = ""
  · simp [hS, hP]
  by_cases hSt : o.Stop = "" <;> by_cases hSP : o.StopPrice = "" <;>
  by_cases hPr : o.Price = "" <;> by_cases hSz : o.Size = "" <;>
  simp [hS, hP, hSt, hSP, hPr, hSz] <;>
  (by_cases h1 : o.TimeInForce = ""
   · simp [h1]; split_ifs <;> rfl
   by_cases h2 : o.TimeInForce = "GTC"
   · simp [h2]; split_ifs <;> rfl
   by_cases h3 : o.TimeInForce = "GTT"
   · simp [h3]; split_ifs <;> rfl
   by_cases h4 : o.TimeInForce = "IOC"
   · by_cases h6 : o.PostOnly = true
     · simp [h4, h6]
     · simp [h4, h6]; split_ifs <;> rfl
   by_cases h5 : o.TimeInForce = "FOK"
   · by_cases h6 : o.PostOnly = true
     · simp [h5, h6]
     · simp [h5, h6]; split_ifs <;> rfl
   simp [h1, h2, h3, h4, h5])


theorem LimitOrderRequest.limit_validate_none_iff (p : LimitOrderRequest) :
    p.validate.2 = none ↔
      ((p.Side = "buy" ∨ p.Side = "sell") ∧ p.ProductID ≠ ""
        ∧ (p.Stop = "" ∨ p.StopPrice ≠ "") ∧ p.Price ≠ "" ∧ p.Size ≠ ""
        ∧ (p.TimeInForce = "" ∨ p.TimeInForce = "GTC" ∨ p.TimeInForce = "GTT"
            ∨ p.TimeInForce = "IOC" ∨ p.TimeInForce = "FOK")
        ∧ ¬ ((p.TimeInForce = "IOC" ∨ p.TimeInForce = "FOK") ∧ p.PostOnly = true)
        ∧ (p.CancelAfter = "" ∨ p.CancelAfter = "min" ∨ p.CancelAfter = "hour"
            ∨ p.CancelAfter = "day")) := by
  rw [LimitOrderRequest.limit_validate_err]
  split_ifs <;> simp_all
  all_goals tauto

theorem MarketOrderRequest.market_validate_err (o : MarketOrderRequest) :
    o.validate.2 =
      if ¬ (o.Side = "buy" ∨ o.Side = "sell") then
        some ("tdcoinbase: order side '" ++ o.Side ++ "' invalid or unknown")
      else if o.ProductID = "" then some "tdcoinbase: order requires ProductID"
      else if o.Stop ≠ "" ∧ o.StopPrice = "" then
        some ("tdcoinbase: order stop " ++ o.Stop ++ " need to have a StopPrice")
      else if o.Size = "" ∧ o.Funds = "" then
        some "tdcoinbase: MarketOrder requires Size or Funds"
      else none := by
  unfold MarketOrderRequest.validate
  simp only [commonOrderRequest.common_validate_flat, Market]
  by_cases hS : o.Side = "buy" ∨ o.Side = "sell"
  swap
  · simp [hS]
  by_cases hP : o.ProductID = ""
  · simp [hS, hP]
  by_cases hSt : o.Stop = "" <;> by_cases hSP : o.StopPrice = "" <;>
  simp [hS, hP, hSt, hSP] <;> split_ifs <;> rfl

theorem MarketOrderRequest.market_validate_fst (o : MarketOrderRequest) :
    o.validate.1 =
      { o with
        Type_ := "market"
        StopPrice :=
          if (o.Side = "buy" ∨ o.Side = "sell") ∧ o.ProductID ≠ "" ∧ o.Stop = "" then ""
          else o.StopPrice } := by
  unfold MarketOrderRequest.validate
  simp only [commonOrderRequest.common_validate_flat, Market]
  by_cases hS : o.Side = "buy" ∨ o.Side = "sell"
  swap
  · simp [hS]
  by_cases hP : o.ProductID = ""
  · simp [hS, hP]
  by_cases hSt : o.Stop = "" <;> by_cases hSP : o.StopPrice = "" <;>
  simp [hS, hP, hSt, hSP] <;> split_ifs <;> rfl

theorem bytesOf_append (s t : String) : bytesOf (s ++ t) = bytesOf s ++ bytesOf t := by
  simp [bytesOf, String.toUTF8]

theorem teeCopy_eq (body : Reader) (signature : Hash) (buf : Bytes) :
    teeCopy body signature buf
      = ({ signature with written := signature.written ++ body.content },
          buf ++ body.content) := by
  induction body generalizing signature buf with
  | nil => simp [teeCopy, Reader.content]
  | cons p body ih => simp [teeCopy, ih, Reader.content, Hash.Write]

theorem limit_common_none_iff (o : LimitOrderRequest) :
    ({ o with Type_ := Limit } : LimitOrderRequest).tocommonOrderRequest.validate.2 = none
      ↔ (o.Side = "buy" ∨ o.Side = "sell") ∧ o.ProductID ≠ ""
          ∧ ¬ (o.Stop ≠ "" ∧ o.StopPrice = "") := by
  rw [commonOrderRequest.common_validate_flat]
  simp only [Limit]
  by_cases hS : o.Side = "buy" ∨ o.Side = "sell"
  swap
  · simp [hS]
  by_cases hP : o.ProductID = ""
  · simp [hS, hP]
  by_cases hSt : o.Stop = ""
  · simp [hS, hP, hSt]
  by_cases hSP : o.StopPrice = ""
  · simp [hS, hP, hSt, hSP]
  · simp [hS, hP, hSt, hSP]


theorem common_idem (c : commonOrderRequest) : c.validate.1.validate = c.validate := by
  rw [commonOrderRequest.common_validate_flat c]
  by_cases h1 : c.Type_ = "limit" ∨ c.Type_ = "market"
  swap
  · rw [if_pos h1, commonOrderRequest.common_validate_flat, if_pos h1]
  rw [if_neg (not_not.mpr h1)]
  by_cases h2 : c.Side = "buy" ∨ c.Side = "sell"
  swap
  · rw [if_pos h2, commonOrderRequest.common_validate_flat, if_neg (not_not.mpr h1), if_pos h2]
  rw [if_neg (not_not.mpr h2)]
  by_cases h3 : c.ProductID = ""
  · rw [if_pos h3, commonOrderRequest.common_validate_flat, if_neg (not_not.mpr h1),
      if_neg (not_not.mpr h2), if_pos h3]
  rw [if_neg h3]
  by_cases h4 : c.Stop = ""
  · rw [if_pos h4, commonOrderRequest.common_validate_flat]
    simp [h1, h2, h3, h4]
  rw [if_neg h4]
  by_cases h5 : c.StopPrice = ""
  · rw [if_pos h5, commonOrderRequest.common_validate_flat, if_neg (not_not.mpr h1),
      if_neg (not_not.mpr h2), if_neg h3, if_neg h4, if_pos h5]
  · rw [if_neg h5, commonOrderRequest.common_validate_flat, if_neg (not_not.mpr h1),
      if_neg (not_not.mpr h2), if_neg h3, if_neg h4, if_neg h5]

theorem limit_idem_err (o : LimitOrderRequest) :
    o.validate.1.validate.2 = o.validate.2 := by
  rw [LimitOrderRequest.limit_validate_err o.validate.1, LimitOrderRequest.limit_validate_err o]
  simp only [LimitOrderRequest.limit_validate_fst]
  by_cases hS : o.Side = "buy" ∨ o.Side = "sell"
  swap
  · simp [hS]
  by_cases hP : o.ProductID = ""
  · simp [hS, hP]
  by_cases hSt : o.Stop = ""
  · by_cases hPr : o.Price = ""
    · simp [hS, hP, hSt, hPr]
    by_cases hSz : o.Size = ""
    · simp [hS, hP, hSt, hPr, hSz]
    by_cases hT : o.TimeInForce = ""
    · simp [hS, hP, hSt, hPr, hSz, hT]
    · simp [hS, hP, hSt, hPr, hSz, hT]
  by_cases hSP : o.StopPrice = ""
  · simp [hS, hP, hSt, hSP]
  by_cases hPr : o.Price = ""
  · simp [hS, hP, hSt, hSP, hPr]
  by_cases hSz : o.Size = ""
  · simp [hS, hP, hSt, hSP, hPr, hSz]
  by_cases hT : o.TimeInForce = ""
  · simp [hS, hP, hSt, hSP, hPr, hSz, hT]
  · simp [hS, hP, hSt, hSP, hPr, hSz, hT]

theorem limit_idem_fst (o : LimitOrderRequest) :
    o.validate.1.validate.1 = o.validate.1 := by
  rw [LimitOrderRequest.limit_validate_fst o.validate.1]
  simp only [LimitOrderRequest.limit_validate_fst]
  by_cases hS : o.Side = "buy" ∨ o.Side = "sell"
  swap
  · simp [hS]
  by_cases hP : o.ProductID = ""
  · simp [hS, hP]
  by_cases hSt : o.Stop = ""
  · by_cases hPr : o.Price = ""
    · simp [hS, hP, hSt, hPr]
    by_cases hSz : o.Size = ""
    · simp [hS, hP, hSt, hPr, hSz]
    by_cases hT : o.TimeInForce = ""
    · simp [hS, hP, hSt, hPr, hSz, hT]
    · simp [hS, hP, hSt, hPr, hSz, hT]
  by_cases hSP : o.StopPrice = ""
  · simp [hS, hP, hSt, hSP]
  by_cases hPr : o.Price = ""
  · simp [hS, hP, hSt, hSP, hPr]
  by_cases hSz : o.Size = ""
  · simp [hS, hP, hSt, hSP, hPr, hSz]
  by_cases hT : o.TimeInForce = ""
  · simp [hS, hP, hSt, hSP, hPr, hSz, hT]
  · simp [hS, hP, hSt, hSP, hPr, hSz, hT]

theorem market_idem_err (o : MarketOrderRequest) :
    o.validate.1.validate.2 = o.validate.2 := by
  rw [MarketOrderRequest.market_validate_err o.validate.1,
    MarketOrderRequest.market_validate_err o]
  simp only [MarketOrderRequest.market_validate_fst]
  by_cases hS : o.Side = "buy" ∨ o.Side = "sell"
  swap
  · simp [hS]
  by_cases hP : o.ProductID = ""
  · simp [hS, hP]
  by_cases hSt : o.Stop = ""
  · simp [hS, hP, hSt]
  · simp [hS, hP, hSt]

theorem market_idem_fst (o : MarketOrderRequest) :
    o.validate.1.validate.1 = o.validate.1 := by
  rw [MarketOrderRequest.market_validate_fst o.validate.1]
  simp only [MarketOrderRequest.market_validate_fst]
  by_cases hS : o.Side = "buy" ∨ o.Side = "sell"
  swap
  · simp [hS]
  by_cases hP : o.ProductID = ""
  · simp [hS, hP]
  by_cases hSt : o.Stop = ""
  · simp [hS, hP, hSt]
  · simp [hS, hP, hSt]

theorem handleResponse_api_iff {α : Type} (env : Env) (decode : Bytes → α → α × Option String)
    (resp : Response) (v : α) :
    ((∃ e, (handleResponse env decode resp v).2 = some (GoError.api e)) ↔ resp.StatusCode > 299)
    ∧ (resp.StatusCode > 299 →
        (handleResponse env decode resp v).2
          = some (GoError.api
              (env.decodeError resp.Body.content { StatusCode := resp.StatusCode }).1))
    ∧ (¬ resp.StatusCode > 299 →
        handleResponse env decode resp v
          = ((decode resp.Body.content v).1,
             (decode resp.Body.content v).2.map GoError.text)) := by
  unfold handleResponse
  by_cases h : resp.StatusCode > 299
  · simp [h]
  · simp only [h, if_false, false_implies, not_false_eq_true, true_implies, true_and, iff_false,
      and_true]
    rintro ⟨e, he⟩
    cases hd : (decode resp.Body.content v).2 <;> simp [hd] at he

theorem PlaceOrder_of_parse_ok (env : Env) (c : Coinbase) (orderReq : OrderRequest)
    (uri : String) (hURL : env.parseRequestURI (c.url ++ orderEndpoint) = .ok uri) :
    c.PlaceOrder env orderReq
      = (match env.roundTrip (c.injectHeaders env
            { Method := "POST", RequestURI := uri,
              Body := some (bytesNewReader (env.marshal orderReq)) }) with
         | .error err =>
           { value := {}, err := some (GoError.text err),
             sent := [c.injectHeaders env
               { Method := "POST", RequestURI := uri,
                 Body := some (bytesNewReader (env.marshal orderReq)) }] }
         | .ok resp =>
           { value := (handleResponse env env.decodeOrder resp ({} : Order)).1,
             err := (handleResponse env env.decodeOrder resp ({} : Order)).2,
             sent := [c.injectHeaders env
               { Method := "POST", RequestURI := uri,
                 Body := some (bytesNewReader (env.marshal orderReq)) }] }) := by
  unfold Coinbase.PlaceOrder NewRequest
  simp only [hURL]

theorem okEnv_parse_orders :
    okEnv.parseRequestURI (testClient.url ++ orderEndpoint) = .ok "/orders" := by
  rfl

theorem content_bytesNewReader (b : Bytes) : Reader.content (bytesNewReader b) = b := by
  simp [Reader.content, bytesNewReader]

theorem decodeOrderReply_orderReplyBody (v : Order) :
    decodeOrderReply orderReplyBody v = (orderReply, none) := by
  unfold decodeOrderReply
  rw [if_pos rfl]

theorem okEnv_handleResponse (v : Order) :
    handleResponse okEnv okEnv.decodeOrder
      { StatusCode := 200, Body := bytesNewReader orderReplyBody } v = (orderReply, none) := by
  have hd : okEnv.decodeOrder = decodeOrderReply := rfl
  rw [(handleResponse_api_iff okEnv okEnv.decodeOrder
    { StatusCode := 200, Body := bytesNewReader orderReplyBody } v).2.2 (by decide),
    content_bytesNewReader, hd, decodeOrderReply_orderReplyBody]
  rfl

/-! ## Request signing -/

/-- C1: `injectHeaders` sets `CB-ACCESS-TIMESTAMP` to the decimal string of the
unix seconds and `CB-ACCESS-SIGN` to the base64 encoding of
HMAC-SHA256(secret, M), where M is the bytes of that same timestamp string,
then the method, then the request URI, then the body bytes (nothing when the
request has no body). -/
theorem injectHeaders_sign_eq_base64_hmac (env : Env) (c : Coinbase) (req : Request) :
    (c.injectHeaders env req).Header.Get "CB-ACCESS-TIMESTAMP" = FormatInt env.now
    ∧ (c.injectHeaders env req).Header.Get "CB-ACCESS-SIGN"
        = env.base64 (env.hmacSHA256 c.secret
            (bytesOf ((c.injectHeaders env req).Header.Get "CB-ACCESS-TIMESTAMP")
              ++ bytesOf req.Method ++ bytesOf req.RequestURI
              ++ (match req.Body with
                  | some body => body.content
                  | none => []))) := by
  unfold Coinbase.injectHeaders
  cases hb : req.Body <;>
  simp [Header.Set, Header.Get, hmacNew, Hash.Write, Hash.Sum, teeCopy_eq, bytesOf_append]

/-! ## Placing an order -/

/-- C2 (as stated, refuted): the empty `LimitOrderRequest` fails `validate`
with the order-side error, yet `PlaceOrder` hands one request to the transport,
whose body is the empty order as given, and with the reply of the test server
it returns no error, as `TestClientPlaceOrder` expects. -/
theorem PlaceOrder_sends_unvalidated_order :
    (LimitOrderRequest.validate {}).2 = some "tdcoinbase: order side '' invalid or unknown"
    ∧ (testClient.PlaceOrder okEnv (OrderRequest.limit {})).sent.length = 1
    ∧ (testClient.PlaceOrder okEnv (OrderRequest.limit {})).sent.map
          (fun r => (r.Method, r.RequestURI))
        = [("POST", "/orders")]
    ∧ (testClient.PlaceOrder okEnv (OrderRequest.limit {})).err = none
    ∧ (testClient.PlaceOrder okEnv (OrderRequest.limit {})).value = orderReply := by
  have hP := PlaceOrder_of_parse_ok okEnv testClient (OrderRequest.limit {}) "/orders"
    okEnv_parse_orders
  have hR : ∀ r : Request, okEnv.roundTrip r
      = .ok { StatusCode := 200, Body := bytesNewReader orderReplyBody } := fun _ => rfl
  rw [hR] at hP
  simp only [okEnv_handleResponse] at hP
  rw [hP]
  refine ⟨by decide, rfl, ?_, rfl, rfl⟩
  simp [Coinbase.injectHeaders]

/-- C2 (amended): `PlaceOrder` never runs `validate`. Whatever the order
request is, when the request URL parses it serializes the request as given,
signs it and hands exactly that one request to the transport, and what it
returns is what the transport or the response handling returns; when the
request URL does not parse it returns the parsing error and sends nothing. -/
theorem PlaceOrder_sends_without_validation (env : Env) (c : Coinbase)
    (orderReq : OrderRequest) :
    (∀ uri : String, env.parseRequestURI (c.url ++ orderEndpoint) = .ok uri →
      (c.PlaceOrder env orderReq).sent
          = [c.injectHeaders env
              { Method := "POST", RequestURI := uri,
                Body := some (bytesNewReader (env.marshal orderReq)) }]
      ∧ (c.PlaceOrder env orderReq).sent.map (fun r => r.Body.map Reader.content)
          = [some (env.marshal orderReq)]
      ∧ (c.PlaceOrder env orderReq).err
          = (match env.roundTrip (c.injectHeaders env
                { Method := "POST", RequestURI := uri,
                  Body := some (bytesNewReader (env.marshal orderReq)) }) with
             | .error err => some (GoError.text err)
             | .ok resp => (handleResponse env env.decodeOrder resp ({} : Order)).2)
      ∧ (c.PlaceOrder env orderReq).value
          = (match env.roundTrip (c.injectHeaders env
                { Method := "POST", RequestURI := uri,
                  Body := some (bytesNewReader (env.marshal orderReq)) }) with
             | .error _ => ({} : Order)
             | .ok resp => (handleResponse env env.decodeOrder resp ({} : Order)).1))
    ∧ (∀ e : String, env.parseRequestURI (c.url ++ orderEndpoint) = .error e →
      (c.PlaceOrder env orderReq).sent = []
      ∧ (c.PlaceOrder env orderReq).err = some (GoError.text e)
      ∧ (c.PlaceOrder env orderReq).value = ({} : Order)) := by
  constructor
  · intro uri hURL
    unfold Coinbase.PlaceOrder NewRequest
    simp only [hURL]
    cases h : env.roundTrip (c.injectHeaders env
        { Method := "POST", RequestURI := uri,
          Body := some (bytesNewReader (env.marshal orderReq)) }) <;>
      simp [Coinbase.injectHeaders, teeCopy_eq, bytesNewReader, Reader.content]
  · intro e hURL
    simp [Coinbase.PlaceOrder, NewRequest, hURL]

/-- Witness for C2 (amended): the empty limit order of the repository test is
sent as marshalled, and with a base URL that does not parse nothing is sent. -/
theorem PlaceOrder_sends_without_validation_witness :
    (testClient.PlaceOrder okEnv (OrderRequest.limit {})).sent.map
        (fun r => r.Body.map Reader.content)
      = [some (okEnv.marshal (OrderRequest.limit {}))]
    ∧ (badURLClient.PlaceOrder okEnv (OrderRequest.limit {})).sent = []
    ∧ (badURLClient.PlaceOrder okEnv (OrderRequest.limit {})).err
        = some (GoError.text ("parse " ++ jsonString ":/orders" ++ ": missing protocol scheme")) :=
  ⟨((PlaceOrder_sends_without_validation okEnv testClient (OrderRequest.limit {})).1
      "/orders" rfl).2.1,
   ((PlaceOrder_sends_without_validation okEnv badURLClient (OrderRequest.limit {})).2
      _ rfl).1,
   ((PlaceOrder_sends_without_validation okEnv badURLClient (OrderRequest.limit {})).2
      _ rfl).2.1⟩

/-! ## Order validation -/

/-- C3 (as stated, refuted): a limit order with an unknown TimeInForce and an
empty Price fails with the Price error, not with the TimeInForce error; and one
with an unknown CancelAfter and an empty Size fails with the Size error. -/
theorem LimitOrderRequest_validate_unknown_value_other_error :
    (LimitOrderRequest.validate
        { Side := "buy", ProductID := "BTC-USD", Size := "0.01", TimeInForce := "ABC" }).2
      = some "tdcoinbase: LimitOrder requires Price"
    ∧ (LimitOrderRequest.validate
        { Side := "buy", ProductID := "BTC-USD", Size := "0.01", TimeInForce := "ABC" }).2
      ≠ some "tdcoinbase: TimeInForce 'ABC' invalid or unknown"
    ∧ (LimitOrderRequest.validate
        { Side := "buy", ProductID := "BTC-USD", Price := "0.100", CancelAfter := "week" }).2
      = some "tdcoinbase: LimitOrder requires Size"
    ∧ (LimitOrderRequest.validate
        { Side := "buy", ProductID := "BTC-USD", Price := "0.100", CancelAfter := "week" }).2
      ≠ some "tdcoinbase: CancelAfter 'week' invalid or unknown" := by
  decide

/-- C3 (amended): for every LimitOrderRequest, whatever its input Type,
`validate` returns no error if and only if Side is buy or sell, ProductID is
non-empty, Stop is NoStop or StopPrice is non-empty, Price and Size are
non-empty, TimeInForce is one of the five accepted values, PostOnly is not
combined with IOC or FOK, and CancelAfter is one of the four accepted values.
When the rules on Side, ProductID, Stop, Price and Size pass, any other
TimeInForce fails with the TimeInForce message; when the TimeInForce rules
pass as well, any other CancelAfter fails with the CancelAfter message. -/
theorem LimitOrderRequest_validate_ok_iff (o : LimitOrderRequest)
    (hSide : o.Side = "buy" ∨ o.Side = "sell") (hProduct : o.ProductID ≠ "")
    (hStop : o.Stop = NoStop ∨ o.StopPrice ≠ "") (hPrice : o.Price ≠ "")
    (hSize : o.Size ≠ "") :
    (∀ p : LimitOrderRequest, p.validate.2 = none ↔
      ((p.Side = "buy" ∨ p.Side = "sell") ∧ p.ProductID ≠ ""
        ∧ (p.Stop = NoStop ∨ p.StopPrice ≠ "") ∧ p.Price ≠ "" ∧ p.Size ≠ ""
        ∧ (p.TimeInForce = "" ∨ p.TimeInForce = "GTC" ∨ p.TimeInForce = "GTT"
            ∨ p.TimeInForce = "IOC" ∨ p.TimeInForce = "FOK")
        ∧ ¬ ((p.TimeInForce = "IOC" ∨ p.TimeInForce = "FOK") ∧ p.PostOnly = true)
        ∧ (p.CancelAfter = "" ∨ p.CancelAfter = "min" ∨ p.CancelAfter = "hour"
            ∨ p.CancelAfter = "day")))
    ∧ (¬ (o.TimeInForce = "" ∨ o.TimeInForce = "GTC" ∨ o.TimeInForce = "GTT"
            ∨ o.TimeInForce = "IOC" ∨ o.TimeInForce = "FOK") →
        o.validate.2
          = some ("tdcoinbase: TimeInForce '" ++ o.TimeInForce ++ "' invalid or unknown"))
    ∧ ((o.TimeInForce = "" ∨ o.TimeInForce = "GTC" ∨ o.TimeInForce = "GTT"
            ∨ o.TimeInForce = "IOC" ∨ o.TimeInForce = "FOK") →
        ¬ ((o.TimeInForce = "IOC" ∨ o.TimeInForce = "FOK") ∧ o.PostOnly = true) →
        ¬ (o.CancelAfter = "" ∨ o.CancelAfter = "min" ∨ o.CancelAfter = "hour"
            ∨ o.CancelAfter = "day") →
        o.validate.2
          = some ("tdcoinbase: CancelAfter '" ++ o.CancelAfter ++ "' invalid or unknown")) := by
  simp only [NoStop] at hStop
  have hStop2 : ¬ (o.Stop ≠ "" ∧ o.StopPrice = "") := by tauto
  have hS : ¬ ¬ (o.Side = "buy" ∨ o.Side = "sell") := not_not.mpr hSide
  refine ⟨fun p => LimitOrderRequest.limit_validate_none_iff p, ?_, ?_⟩
  · intro hT
    have hPO : ¬ ((o.TimeInForce = "IOC" ∨ o.TimeInForce = "FOK") ∧ o.PostOnly = true) := by
      tauto
    rw [LimitOrderRequest.limit_validate_err, if_neg hS, if_neg hProduct, if_neg hStop2,
      if_neg hPrice, if_neg hSize, if_neg hPO, if_pos hT]
  · intro hT hPO hC
    rw [LimitOrderRequest.limit_validate_err, if_neg hS, if_neg hProduct, if_neg hStop2,
      if_neg hPrice, if_neg hSize, if_neg hPO, if_neg (not_not.mpr hT), if_neg hC]

/-- Witness for C3 (amended): a limit order that passes every earlier rule and
carries the unknown TimeInForce ABC. -/
theorem LimitOrderRequest_validate_ok_iff_witness :
    (LimitOrderRequest.validate
        { Side := "buy", ProductID := "BTC-USD", Price := "0.100", Size := "0.01",
          TimeInForce := "ABC" }).2
      = some ("tdcoinbase: TimeInForce '" ++ "ABC" ++ "' invalid or unknown") :=
  (LimitOrderRequest_validate_ok_iff
    { Side := "buy", ProductID := "BTC-USD", Price := "0.100", Size := "0.01",
      TimeInForce := "ABC" }
    (by decide) (by decide) (by decide) (by decide) (by decide)).2.1 (by decide)

/-- C4: for every MarketOrderRequest whose common fields pass validation,
`validate` succeeds if and only if Size or Funds is non-empty, and when both
are empty it fails with "tdcoinbase: MarketOrder requires Size or Funds". -/
theorem MarketOrderRequest_validate_size_or_funds (o : MarketOrderRequest)
    (hSide : o.Side = "buy" ∨ o.Side = "sell") (hProduct : o.ProductID ≠ "")
    (hStop : o.Stop = NoStop ∨ o.StopPrice ≠ "") :
    (o.validate.2 = none ↔ (o.Size ≠ "" ∨ o.Funds ≠ ""))
    ∧ (o.Size = "" ∧ o.Funds = "" →
        o.validate.2 = some "tdcoinbase: MarketOrder requires Size or Funds") := by
  simp only [NoStop] at hStop
  have hStop2 : ¬ (o.Stop ≠ "" ∧ o.StopPrice = "") := by tauto
  have hS : ¬ ¬ (o.Side = "buy" ∨ o.Side = "sell") := not_not.mpr hSide
  rw [MarketOrderRequest.market_validate_err, if_neg hS, if_neg hProduct, if_neg hStop2]
  constructor
  · by_cases h : o.Size = "" ∧ o.Funds = ""
    · rw [if_pos h]
      simp [h.1, h.2]
    · rw [if_neg h]
      simp only [true_iff]
      tauto
  · intro h
    rw [if_pos h]

/-- Witness for C4: a market sell with only Funds set passes, as in the tests. -/
theorem MarketOrderRequest_validate_size_or_funds_witness :
    (MarketOrderRequest.validate
        { Side := "sell", ProductID := "BTC-USD", Funds := "0.01" }).2 = none :=
  ((MarketOrderRequest_validate_size_or_funds
    { Side := "sell", ProductID := "BTC-USD", Funds := "0.01" }
    (by decide) (by decide) (by decide)).1).2 (by decide)

/-- C5: for every LimitOrderRequest and every MarketOrderRequest, whatever its
Type, `validate` never returns an "order type '...' invalid or unknown" error;
a standalone commonOrderRequest does return it. -/
theorem validate_type_error_only_for_common :
    (∀ (o : LimitOrderRequest) (t : String),
        o.validate.2 ≠ some ("tdcoinbase: order type '" ++ t ++ "' invalid or unknown"))
    ∧ (∀ (o : MarketOrderRequest) (t : String),
        o.validate.2 ≠ some ("tdcoinbase: order type '" ++ t ++ "' invalid or unknown"))
    ∧ (∃ c : commonOrderRequest,
        c.validate.2 = some ("tdcoinbase: order type '" ++ c.Type_ ++ "' invalid or unknown")) := by
  refine ⟨?_, ?_, ⟨{}, by decide⟩⟩
  · intro o t
    rw [LimitOrderRequest.limit_validate_err]
    split_ifs <;> simp <;>
      (intro h; have := congrArg String.data h; simp at this)
  · intro o t
    rw [MarketOrderRequest.market_validate_err]
    split_ifs <;> simp <;>
      (intro h; have := congrArg String.data h; simp at this)

/-- C6: after `validate` the Type of a LimitOrderRequest is Limit and the Type
of a MarketOrderRequest is Market, whatever Type the caller had set and whether
`validate` succeeds or fails. -/
theorem validate_overrides_type :
    (∀ o : LimitOrderRequest, o.validate.1.Type_ = Limit)
    ∧ (∀ o : MarketOrderRequest, o.validate.1.Type_ = Market) := by
  constructor
  · intro o
    rw [LimitOrderRequest.limit_validate_fst]
    rfl
  · intro o
    rw [MarketOrderRequest.market_validate_fst]
    rfl

/-- C7: a commonOrderRequest with a valid Type and Side, a non-empty ProductID
and Stop equal to NoStop validates without error, and afterwards StopPrice is
empty whatever it was before. -/
theorem commonOrderRequest_validate_clears_stopPrice (o : commonOrderRequest)
    (hType : o.Type_ = Limit ∨ o.Type_ = Market) (hSide : o.Side = Buy ∨ o.Side = Sell)
    (hProduct : o.ProductID ≠ "") (hStop : o.Stop = NoStop) :
    o.validate.2 = none ∧ o.validate.1.StopPrice = "" := by
  simp [commonOrderRequest.validate, hType, hSide, hProduct, hStop]

/-- Witness for C7: the order of the repository test, with StopPrice set. -/
theorem commonOrderRequest_validate_clears_stopPrice_witness :
    (commonOrderRequest.validate
        { Type_ := Limit, Side := Buy, ProductID := "BTC-USD", Stop := NoStop,
          StopPrice := "0.10000000" }).2 = none
    ∧ (commonOrderRequest.validate
        { Type_ := Limit, Side := Buy, ProductID := "BTC-USD", Stop := NoStop,
          StopPrice := "0.10000000" }).1.StopPrice = "" :=
  commonOrderRequest_validate_clears_stopPrice
    { Type_ := Limit, Side := Buy, ProductID := "BTC-USD", Stop := NoStop,
      StopPrice := "0.10000000" }
    (by decide) (by decide) (by decide) (by decide)

/-- C8: a commonOrderRequest with a valid Type and Side, a non-empty ProductID
and a Stop other than NoStop fails with "tdcoinbase: order stop <Stop> need to
have a StopPrice" when StopPrice is empty, and succeeds leaving StopPrice
unchanged when StopPrice is non-empty. -/
theorem commonOrderRequest_validate_stop_needs_stopPrice (o : commonOrderRequest)
    (hType : o.Type_ = Limit ∨ o.Type_ = Market) (hSide : o.Side = Buy ∨ o.Side = Sell)
    (hProduct : o.ProductID ≠ "") (hStop : o.Stop ≠ NoStop) :
    (o.StopPrice = "" → o.validate.2
        = some ("tdcoinbase: order stop " ++ o.Stop ++ " need to have a StopPrice"))
    ∧ (o.StopPrice ≠ "" → o.validate.2 = none ∧ o.validate.1.StopPrice = o.StopPrice) := by
  constructor <;> intro h <;>
    simp [commonOrderRequest.validate, hType, hSide, hProduct, hStop, h]

/-- Witness for C8: the stop-loss order of the repository test, without StopPrice. -/
theorem commonOrderRequest_validate_stop_needs_stopPrice_witness :
    (commonOrderRequest.validate
        { Type_ := Limit, Side := Buy, ProductID := "BTC-USD", Stop := StopLoss }).2
      = some ("tdcoinbase: order stop " ++ StopLoss ++ " need to have a StopPrice") :=
  (commonOrderRequest_validate_stop_needs_stopPrice
    { Type_ := Limit, Side := Buy, ProductID := "BTC-USD", Stop := StopLoss }
    (by decide) (by decide) (by decide) (by decide)).1 (by decide)

/-- C9: a commonOrderRequest whose Type is neither limit nor market fails with
"tdcoinbase: order type '<Type>' invalid or unknown" whatever its other fields
are; for the all-empty request the message is
"tdcoinbase: order type '' invalid or unknown". -/
theorem commonOrderRequest_validate_unknown_type (o : commonOrderRequest)
    (hType : ¬ (o.Type_ = Limit ∨ o.Type_ = Market)) :
    o.validate.2 = some ("tdcoinbase: order type '" ++ o.Type_ ++ "' invalid or unknown")
    ∧ (commonOrderRequest.validate {}).2
        = some "tdcoinbase: order type '' invalid or unknown" := by
  refine ⟨?_, by decide⟩
  simp [commonOrderRequest.validate, hType]

/-- Witness for C9: the invalid type of the repository test. -/
theorem commonOrderRequest_validate_unknown_type_witness :
    (commonOrderRequest.validate { Type_ := "invalid" }).2
      = some ("tdcoinbase: order type '" ++ "invalid" ++ "' invalid or unknown") :=
  (commonOrderRequest_validate_unknown_type { Type_ := "invalid" } (by decide)).1

/-- C10: a commonOrderRequest with Type limit or market whose Side is neither
buy nor sell fails with "tdcoinbase: order side '<Side>' invalid or unknown",
whatever ProductID, Stop and StopPrice are. -/
theorem commonOrderRequest_validate_unknown_side (o : commonOrderRequest)
    (hType : o.Type_ = Limit ∨ o.Type_ = Market)
    (hSide : ¬ (o.Side = Buy ∨ o.Side = Sell)) :
    o.validate.2 = some ("tdcoinbase: order side '" ++ o.Side ++ "' invalid or unknown") := by
  simp [commonOrderRequest.validate, hType, hSide]

/-- Witness for C10: the invalid side of the repository test. -/
theorem commonOrderRequest_validate_unknown_side_witness :
    (commonOrderRequest.validate { Type_ := Market, Side := "invalid" }).2
      = some ("tdcoinbase: order side '" ++ "invalid" ++ "' invalid or unknown") :=
  commonOrderRequest_validate_unknown_side { Type_ := Market, Side := "invalid" }
    (by decide) (by decide)

/-! ## Order validation: mandatory fields, defaults and ordering -/

/-- C11: a commonOrderRequest with Type limit or market, Side buy or sell and
an empty ProductID fails with "tdcoinbase: order requires ProductID", whatever
Stop and StopPrice are. -/
theorem commonOrderRequest_validate_requires_productID (o : commonOrderRequest)
    (hType : o.Type_ = Limit ∨ o.Type_ = Market) (hSide : o.Side = Buy ∨ o.Side = Sell)
    (hProduct : o.ProductID = "") :
    o.validate.2 = some "tdcoinbase: order requires ProductID" := by
  simp [commonOrderRequest.validate, hType, hSide, hProduct]

/-- Witness for C11: the market sell without product of the repository test. -/
theorem commonOrderRequest_validate_requires_productID_witness :
    (commonOrderRequest.validate { Type_ := Market, Side := Sell }).2
      = some "tdcoinbase: order requires ProductID" :=
  commonOrderRequest_validate_requires_productID { Type_ := Market, Side := Sell }
    (by decide) (by decide) (by decide)

/-- C12: a LimitOrderRequest with an empty TimeInForce whose other fields are
valid validates without error, whatever PostOnly is, and afterwards its
TimeInForce is "GTC"; a non-empty TimeInForce is left as the caller set it. -/
theorem LimitOrderRequest_validate_default_timeInForce (o : LimitOrderRequest)
    (hSide : o.Side = "buy" ∨ o.Side = "sell") (hProduct : o.ProductID ≠ "")
    (hStop : o.Stop = NoStop ∨ o.StopPrice ≠ "") (hPrice : o.Price ≠ "")
    (hSize : o.Size ≠ "")
    (hCancel : o.CancelAfter = "" ∨ o.CancelAfter = "min" ∨ o.CancelAfter = "hour"
      ∨ o.CancelAfter = "day")
    (hTIF : o.TimeInForce = "") :
    o.validate.2 = none ∧ o.validate.1.TimeInForce = "GTC"
    ∧ (∀ p : LimitOrderRequest, p.TimeInForce ≠ "" →
        p.validate.1.TimeInForce = p.TimeInForce) := by
  simp only [NoStop] at hStop
  refine ⟨?_, ?_, ?_⟩
  · rw [LimitOrderRequest.limit_validate_none_iff]
    simp [hSide, hProduct, hStop, hPrice, hSize, hCancel, hTIF]
  · rw [LimitOrderRequest.limit_validate_fst]
    simp [hSide, hProduct, hStop, hPrice, hSize, hTIF]
  · intro p hp
    rw [LimitOrderRequest.limit_validate_fst]
    simp [hp]

/-- Witness for C12: the limit order of the repository test, with PostOnly set. -/
theorem LimitOrderRequest_validate_default_timeInForce_witness :
    (LimitOrderRequest.validate
        { Side := "buy", ProductID := "BTC-USD", Price := "0.100", Size := "0.01",
          PostOnly := true }).2 = none
    ∧ (LimitOrderRequest.validate
        { Side := "buy", ProductID := "BTC-USD", Price := "0.100", Size := "0.01",
          PostOnly := true }).1.TimeInForce = "GTC" :=
  ⟨(LimitOrderRequest_validate_default_timeInForce
      { Side := "buy", ProductID := "BTC-USD", Price := "0.100", Size := "0.01",
        PostOnly := true }
      (by decide) (by decide) (by decide) (by decide) (by decide) (by decide) (by decide)).1,
   (LimitOrderRequest_validate_default_timeInForce
      { Side := "buy", ProductID := "BTC-USD", Price := "0.100", Size := "0.01",
        PostOnly := true }
      (by decide) (by decide) (by decide) (by decide) (by decide) (by decide)
      (by decide)).2.1⟩

/-- C13: for a LimitOrderRequest whose common fields pass validation, an empty
Price fails with "tdcoinbase: LimitOrder requires Price" whatever Size is, and
a non-empty Price with an empty Size fails with
"tdcoinbase: LimitOrder requires Size". -/
theorem LimitOrderRequest_validate_requires_price_then_size (o : LimitOrderRequest)
    (hSide : o.Side = "buy" ∨ o.Side = "sell") (hProduct : o.ProductID ≠ "")
    (hStop : o.Stop = NoStop ∨ o.StopPrice ≠ "") :
    (o.Price = "" → o.validate.2 = some "tdcoinbase: LimitOrder requires Price")
    ∧ (o.Price ≠ "" → o.Size = "" →
        o.validate.2 = some "tdcoinbase: LimitOrder requires Size") := by
  simp only [NoStop] at hStop
  have hStop2 : ¬ (o.Stop ≠ "" ∧ o.StopPrice = "") := by tauto
  have hS : ¬ ¬ (o.Side = "buy" ∨ o.Side = "sell") := not_not.mpr hSide
  constructor
  · intro hP
    rw [LimitOrderRequest.limit_validate_err, if_neg hS, if_neg hProduct, if_neg hStop2,
      if_pos hP]
  · intro hP hSz
    rw [LimitOrderRequest.limit_validate_err, if_neg hS, if_neg hProduct, if_neg hStop2,
      if_neg hP, if_pos hSz]

/-- Witness for C13: a limit order without Price and without Size. -/
theorem LimitOrderRequest_validate_requires_price_then_size_witness :
    (LimitOrderRequest.validate { Side := "buy", ProductID := "BTC-USD" }).2
      = some "tdcoinbase: LimitOrder requires Price" :=
  (LimitOrderRequest_validate_requires_price_then_size
    { Side := "buy", ProductID := "BTC-USD" }
    (by decide) (by decide) (by decide)).1 (by decide)

/-- C14: for a LimitOrderRequest whose common fields pass and whose Price and
Size are non-empty, TimeInForce IOC or FOK together with PostOnly fails with
"tdcoinbase: PostOnly flag cannot be used with TimeInForce <TimeInForce>".
Consequently a request on which `validate` succeeds has, as `validate` leaves
it, PostOnly false or TimeInForce GTC or GTT (on the input: PostOnly false or
TimeInForce empty, GTC or GTT, the empty one having become GTC). -/
theorem LimitOrderRequest_validate_postOnly_conflict (o : LimitOrderRequest)
    (hSide : o.Side = "buy" ∨ o.Side = "sell") (hProduct : o.ProductID ≠ "")
    (hStop : o.Stop = NoStop ∨ o.StopPrice ≠ "") (hPrice : o.Price ≠ "")
    (hSize : o.Size ≠ "")
    (hTIF : o.TimeInForce = "IOC" ∨ o.TimeInForce = "FOK") (hPost : o.PostOnly = true) :
    o.validate.2
      = some ("tdcoinbase: PostOnly flag cannot be used with TimeInForce " ++ o.TimeInForce)
    ∧ (∀ p : LimitOrderRequest, p.validate.2 = none →
        (p.validate.1.PostOnly = false
          ∨ p.validate.1.TimeInForce = "GTC" ∨ p.validate.1.TimeInForce = "GTT")
        ∧ (p.PostOnly = false ∨ p.TimeInForce = "" ∨ p.TimeInForce = "GTC"
          ∨ p.TimeInForce = "GTT")) := by
  simp only [NoStop] at hStop
  have hStop2 : ¬ (o.Stop ≠ "" ∧ o.StopPrice = "") := by tauto
  have hS : ¬ ¬ (o.Side = "buy" ∨ o.Side = "sell") := not_not.mpr hSide
  constructor
  · rw [LimitOrderRequest.limit_validate_err, if_neg hS, if_neg hProduct, if_neg hStop2,
      if_neg hPrice, if_neg hSize, if_pos ⟨hTIF, hPost⟩]
  · intro p hp
    have h := (LimitOrderRequest.limit_validate_none_iff p).mp hp
    obtain ⟨h1, h2, h3, h4, h5, h6, h7, h8⟩ := h
    rw [LimitOrderRequest.limit_validate_fst]
    simp only [h1, h2, h3, h4, h5, ne_eq, not_false_eq_true, true_and]
    cases hpo : p.PostOnly
    · simp
    · simp only [hpo, and_true] at h7
      have h9 : p.TimeInForce = "" ∨ p.TimeInForce = "GTC" ∨ p.TimeInForce = "GTT" := by
        rcases h6 with h | h | h | h | h
        · exact Or.inl h
        · exact Or.inr (Or.inl h)
        · exact Or.inr (Or.inr h)
        · exact absurd (Or.inl h) h7
        · exact absurd (Or.inr h) h7
      rcases h9 with h9 | h9 | h9 <;> simp [h9]

/-- Witness for C14: a fill-or-kill limit order with PostOnly set. -/
theorem LimitOrderRequest_validate_postOnly_conflict_witness :
    (LimitOrderRequest.validate
        { Side := "buy", ProductID := "BTC-USD", Price := "0.100", Size := "0.01",
          TimeInForce := "FOK", PostOnly := true }).2
      = some ("tdcoinbase: PostOnly flag cannot be used with TimeInForce " ++ "FOK") :=
  (LimitOrderRequest_validate_postOnly_conflict
    { Side := "buy", ProductID := "BTC-USD", Price := "0.100", Size := "0.01",
      TimeInForce := "FOK", PostOnly := true }
    (by decide) (by decide) (by decide) (by decide) (by decide) (by decide) (by decide)).1

/-- C15: validation rejects on the first failing rule. A common-field error
(found with Type already overridden) is returned as it is by the
LimitOrderRequest and the MarketOrderRequest validation, whatever the
kind-specific fields are; the common-field error is that of the first failing
rule in the order type, side, product id, stop; and for a LimitOrderRequest
whose common fields pass, the error is that of the first failing rule in the
order price, size, time-in-force (unknown value or post-only conflict),
cancel-after. -/
theorem validate_first_failing_rule :
    (∀ (o : LimitOrderRequest) (e : String),
        ({ o with Type_ := Limit } : LimitOrderRequest).tocommonOrderRequest.validate.2 = some e →
        o.validate.2 = some e)
    ∧ (∀ (o : MarketOrderRequest) (e : String),
        ({ o with Type_ := Market } : MarketOrderRequest).tocommonOrderRequest.validate.2
          = some e →
        o.validate.2 = some e)
    ∧ (∀ c : commonOrderRequest, c.validate.2 =
        if ¬ (c.Type_ = Limit ∨ c.Type_ = Market) then
          some ("tdcoinbase: order type '" ++ c.Type_ ++ "' invalid or unknown")
        else if ¬ (c.Side = Buy ∨ c.Side = Sell) then
          some ("tdcoinbase: order side '" ++ c.Side ++ "' invalid or unknown")
        else if c.ProductID = "" then some "tdcoinbase: order requires ProductID"
        else if c.Stop ≠ NoStop ∧ c.StopPrice = "" then
          some ("tdcoinbase: order stop " ++ c.Stop ++ " need to have a StopPrice")
        else none)
    ∧ (∀ o : LimitOrderRequest,
        ({ o with Type_ := Limit } : LimitOrderRequest).tocommonOrderRequest.validate.2 = none →
        o.validate.2 =
          if o.Price = "" then some "tdcoinbase: LimitOrder requires Price"
          else if o.Size = "" then some "tdcoinbase: LimitOrder requires Size"
          else if ¬ (o.TimeInForce = "" ∨ o.TimeInForce = "GTC" ∨ o.TimeInForce = "GTT"
              ∨ o.TimeInForce = "IOC" ∨ o.TimeInForce = "FOK") then
            some ("tdcoinbase: TimeInForce '" ++ o.TimeInForce ++ "' invalid or unknown")
          else if (o.TimeInForce = "IOC" ∨ o.TimeInForce = "FOK") ∧ o.PostOnly = true then
            some ("tdcoinbase: PostOnly flag cannot be used with TimeInForce "
              ++ o.TimeInForce)
          else if ¬ (o.CancelAfter = "" ∨ o.CancelAfter = "min" ∨ o.CancelAfter = "hour"
              ∨ o.CancelAfter = "day") then
            some ("tdcoinbase: CancelAfter '" ++ o.CancelAfter ++ "' invalid or unknown")
          else none) := by
  refine ⟨?_, ?_, ?_, ?_⟩
  · intro o e h
    unfold LimitOrderRequest.validate
    simp only
    split
    · rename_i c err hc
      rw [hc] at h
      exact h
    · rename_i c hc
      rw [hc] at h
      exact absurd h (by simp)
  · intro o e h
    unfold MarketOrderRequest.validate
    simp only
    split
    · rename_i c err hc
      rw [hc] at h
      exact h
    · rename_i c hc
      rw [hc] at h
      exact absurd h (by simp)
  · intro c
    rw [commonOrderRequest.common_validate_flat]
    simp only [Limit, Market, Buy, Sell, NoStop]
    by_cases h1 : c.Type_ = "limit" ∨ c.Type_ = "market"
    swap
    · simp [h1]
    by_cases h2 : c.Side = "buy" ∨ c.Side = "sell"
    swap
    · simp [h1, h2]
    by_cases h3 : c.ProductID = ""
    · simp [h1, h2, h3]
    by_cases h4 : c.Stop = ""
    · simp [h1, h2, h3, h4]
    by_cases h5 : c.StopPrice = ""
    · simp [h1, h2, h3, h4, h5]
    · simp [h1, h2, h3, h4, h5]
  · intro o h
    obtain ⟨hS, hP, hSt⟩ := (limit_common_none_iff o).mp h
    rw [LimitOrderRequest.limit_validate_err, if_neg (not_not.mpr hS), if_neg hP, if_neg hSt]
    by_cases hPr : o.Price = ""
    · rw [if_pos hPr, if_pos hPr]
    rw [if_neg hPr, if_neg hPr]
    by_cases hSz : o.Size = ""
    · rw [if_pos hSz, if_pos hSz]
    rw [if_neg hSz, if_neg hSz]
    by_cases hT : o.TimeInForce = "" ∨ o.TimeInForce = "GTC" ∨ o.TimeInForce = "GTT"
              ∨ o.TimeInForce = "IOC" ∨ o.TimeInForce = "FOK"
    swap
    · have hPO : ¬ ((o.TimeInForce = "IOC" ∨ o.TimeInForce = "FOK") ∧ o.PostOnly = true) :=
        fun hc => hT (by rcases hc.1 with h | h <;> simp [h])
      rw [if_neg hPO, if_pos hT, if_pos hT]
    by_cases hPO : (o.TimeInForce = "IOC" ∨ o.TimeInForce = "FOK") ∧ o.PostOnly = true
    · rw [if_pos hPO, if_neg (not_not.mpr hT), if_pos hPO]
    rw [if_neg hPO]
    by_cases hC : o.CancelAfter = "" ∨ o.CancelAfter = "min" ∨ o.CancelAfter = "hour"
              ∨ o.CancelAfter = "day"
    · rw [if_neg (not_not.mpr hT), if_pos hC, if_neg (not_not.mpr hT), if_neg hPO,
        if_neg (not_not.mpr hC)]
    · rw [if_neg (not_not.mpr hT), if_neg hC, if_neg (not_not.mpr hT), if_neg hPO, if_pos hC]

/-- C19: `validate` is idempotent on commonOrderRequest, LimitOrderRequest and
MarketOrderRequest: a second run on the request left by a first run returns
the same outcome and leaves the request as the first run left it. -/
theorem validate_idempotent :
    (∀ c : commonOrderRequest,
        c.validate.1.validate.2 = c.validate.2 ∧ c.validate.1.validate.1 = c.validate.1)
    ∧ (∀ o : LimitOrderRequest,
        o.validate.1.validate.2 = o.validate.2 ∧ o.validate.1.validate.1 = o.validate.1)
    ∧ (∀ o : MarketOrderRequest,
        o.validate.1.validate.2 = o.validate.2 ∧ o.validate.1.validate.1 = o.validate.1) := by
  refine ⟨fun c => ?_, fun o => ⟨limit_idem_err o, limit_idem_fst o⟩,
    fun o => ⟨market_idem_err o, market_idem_fst o⟩⟩
  rw [common_idem c]
  exact ⟨rfl, rfl⟩

/-- C20: `validate` mutates only the normalized fields, on success and on
failure alike. On a LimitOrderRequest ClientOID, Side, ProductID, Stp, Stop,
Price, Size, CancelAfter and PostOnly are the same after as before; on a
MarketOrderRequest ClientOID, Side, ProductID, Stp, Stop, Size and Funds are;
StopPrice changes only when Stop is NoStop and TimeInForce only when it was
empty. -/
theorem validate_frame :
    (∀ o : LimitOrderRequest,
      o.validate.1.ClientOID = o.ClientOID ∧ o.validate.1.Side = o.Side
      ∧ o.validate.1.ProductID = o.ProductID ∧ o.validate.1.Stp = o.Stp
      ∧ o.validate.1.Stop = o.Stop ∧ o.validate.1.Price = o.Price
      ∧ o.validate.1.Size = o.Size ∧ o.validate.1.CancelAfter = o.CancelAfter
      ∧ o.validate.1.PostOnly = o.PostOnly
      ∧ (o.validate.1.StopPrice ≠ o.StopPrice → o.Stop = NoStop)
      ∧ (o.validate.1.TimeInForce ≠ o.TimeInForce → o.TimeInForce = ""))
    ∧ (∀ o : MarketOrderRequest,
      o.validate.1.ClientOID = o.ClientOID ∧ o.validate.1.Side = o.Side
      ∧ o.validate.1.ProductID = o.ProductID ∧ o.validate.1.Stp = o.Stp
      ∧ o.validate.1.Stop = o.Stop ∧ o.validate.1.Size = o.Size
      ∧ o.validate.1.Funds = o.Funds
      ∧ (o.validate.1.StopPrice ≠ o.StopPrice → o.Stop = NoStop)) := by
  constructor
  · intro o
    rw [LimitOrderRequest.limit_validate_fst]
    refine ⟨rfl, rfl, rfl, rfl, rfl, rfl, rfl, rfl, rfl, ?_, ?_⟩
    · intro h
      by_cases hc : (o.Side = "buy" ∨ o.Side = "sell") ∧ o.ProductID ≠ "" ∧ o.Stop = ""
      · exact hc.2.2
      · exact absurd (if_neg hc) h
    · intro h
      by_cases hc : (o.Side = "buy" ∨ o.Side = "sell") ∧ o.ProductID ≠ ""
              ∧ (o.Stop = "" ∨ o.StopPrice ≠ "") ∧ o.Price ≠ "" ∧ o.Size ≠ ""
              ∧ o.TimeInForce = ""
      · exact hc.2.2.2.2.2
      · exact absurd (if_neg hc) h
  · intro o
    rw [MarketOrderRequest.market_validate_fst]
    refine ⟨rfl, rfl, rfl, rfl, rfl, rfl, rfl, ?_⟩
    intro h
    by_cases hc : (o.Side = "buy" ∨ o.Side = "sell") ∧ o.ProductID ≠ "" ∧ o.Stop = ""
    · exact hc.2.2
    · exact absurd (if_neg hc) h

/-! ## Signing keeps the body; responses and errors -/

/-- C16: for a request with a body of content B, after `injectHeaders` the body
is a fresh reader whose complete content is B, and B is the byte sequence fed
to the HMAC after the request line, so that the signature covers the request
line followed by B. -/
theorem injectHeaders_keeps_body (env : Env) (c : Coinbase) (req : Request) (body : Reader)
    (hBody : req.Body = some body) :
    (c.injectHeaders env req).Body = some (bytesNewReader body.content)
    ∧ (c.injectHeaders env req).Body.map Reader.content = some body.content
    ∧ teeCopy body
        ((hmacNew c.secret).Write
          (bytesOf (FormatInt env.now ++ req.Method ++ req.RequestURI))) []
        = ({ key := c.secret,
             written := bytesOf (FormatInt env.now ++ req.Method ++ req.RequestURI)
               ++ body.content },
           body.content)
    ∧ (c.injectHeaders env req).Header.Get "CB-ACCESS-SIGN"
        = env.base64 (env.hmacSHA256 c.secret
            (bytesOf (FormatInt env.now ++ req.Method ++ req.RequestURI) ++ body.content)) := by
  unfold Coinbase.injectHeaders
  simp [hBody, Header.Set, Header.Get, hmacNew, Hash.Write, Hash.Sum, teeCopy_eq,
    bytesNewReader, Reader.content]

/-- Witness for C16: a body delivered in two chunks. -/
theorem injectHeaders_keeps_body_witness :
    (testClient.injectHeaders okEnv
        { Method := "POST", RequestURI := "/orders", Body := some [[1, 2], [3]] }).Body.map
        Reader.content
      = some (Reader.content [[1, 2], [3]]) :=
  (injectHeaders_keeps_body okEnv testClient
    { Method := "POST", RequestURI := "/orders", Body := some [[1, 2], [3]] }
    [[1, 2], [3]] rfl).2.1

/-- C17 (the code at the failing input): for a response with status 400 whose
body is the object with members message "Invalid Price" and StatusCode 200,
`handleResponse` returns an `Error` with StatusCode 200, not the 400 of the
response. -/
theorem handleResponse_status_overwritten_by_body :
    (handleResponse statusEnv statusEnv.decodeOrder
        { StatusCode := 400, Body := [statusBody] } ({} : Order)).2
      = some (GoError.api { StatusCode := 200, Message := "Invalid Price" })
    ∧ (handleResponse statusEnv statusEnv.decodeOrder
        { StatusCode := 400, Body := [statusBody] } ({} : Order)).2
      ≠ some (GoError.api { StatusCode := 400, Message := "Invalid Price" }) := by
  have hm : decodeErrorMember
      (decodeErrorMember (({ StatusCode := 400 } : Error), none)
        ("message", JSONValue.string "Invalid Price"))
      ("StatusCode", JSONValue.integer 200)
      = ({ StatusCode := 200, Message := "Invalid Price" }, none) := by decide
  have h : (handleResponse statusEnv statusEnv.decodeOrder
        { StatusCode := 400, Body := [statusBody] } ({} : Order)).2
      = some (GoError.api { StatusCode := 200, Message := "Invalid Price" }) := by
    simp [handleResponse, statusEnv, decodeErrorJSON, statusBodyParse, Reader.content, hm]
  refine ⟨h, ?_⟩
  rw [h]
  decide

/-- C18: `Error()` renders "tdcoinbase: ", the status text of StatusCode,
" - " and Message; for StatusCode 400 and Message "Invalid Price" that is
"tdcoinbase: Bad Request - Invalid Price". -/
theorem Error_renders_status_text :
    (∀ e : Error, e.Error = "tdcoinbase: " ++ StatusText e.StatusCode ++ " - " ++ e.Message)
    ∧ Error.Error { StatusCode := 400, Message := "Invalid Price" }
        = "tdcoinbase: Bad Request - Invalid Price" := by
  refine ⟨fun e => rfl, by decide⟩

/-! ## The stop kind -/

/-- C21: the stop kind is not checked against its declared values. A
commonOrderRequest with Stop "trailing" (none of NoStop, StopLoss, StopEntry),
a valid Type, Side and ProductID and a non-empty StopPrice validates without
error and keeps its Stop and StopPrice; whereas after every successful
validation Type is limit or market and Side is buy or sell. -/
theorem commonOrderRequest_validate_stop_unchecked :
    (∃ c : commonOrderRequest,
        c.Stop ≠ NoStop ∧ c.Stop ≠ StopLoss ∧ c.Stop ≠ StopEntry
        ∧ (c.Type_ = Limit ∨ c.Type_ = Market) ∧ (c.Side = Buy ∨ c.Side = Sell)
        ∧ c.ProductID ≠ "" ∧ c.StopPrice ≠ ""
        ∧ c.validate.2 = none ∧ c.validate.1.Stop = c.Stop
        ∧ c.validate.1.StopPrice = c.StopPrice
        ∧ ¬ (c.validate.1.Stop = NoStop ∨ c.validate.1.Stop = StopLoss
              ∨ c.validate.1.Stop = StopEntry))
    ∧ (∀ c : commonOrderRequest, c.validate.2 = none →
        (c.validate.1.Type_ = Limit ∨ c.validate.1.Type_ = Market)
        ∧ (c.validate.1.Side = Buy ∨ c.validate.1.Side = Sell)) := by
  constructor
  · exact ⟨{ Type_ := Limit, Side := Buy, ProductID := "BTC-USD", Stop := "trailing",
             StopPrice := "0.10000000" }, by decide⟩
  · intro c
    rw [commonOrderRequest.common_validate_flat]
    simp only [Limit, Market, Buy, Sell]
    by_cases h1 : c.Type_ = "limit" ∨ c.Type_ = "market"
    swap
    · simp [h1]
    by_cases h2 : c.Side = "buy" ∨ c.Side = "sell"
    swap
    · simp [h1, h2]
    by_cases h3 : c.ProductID = ""
    · simp [h1, h2, h3]
    by_cases h4 : c.Stop = ""
    · simp [h1, h2, h3, h4]
    by_cases h5 : c.StopPrice = ""
    · simp [h1, h2, h3, h4, h5]
    · simp [h1, h2, h3, h4, h5]

end Tdcoinbase
